import Mathlib

/-!
Verification development for the SnapsAI social-media converter.

The Python program (SnapsAI_instagramversion) converts an Instagram post
into a post adapted for a target platform, grounded in retrieved style-guide
context (a RAG pipeline).  The definitions below shallowly embed the data
model and the operations of that program:

* pure functions of the source become Lean functions;
* methods that mutate `self.conversion_history` are embedded by threading
  the history list explicitly and returning the updated list;
* Python exceptions are embedded with `Except`: a statement sequence that
  raises before an append leaves the threaded state at its pre-call value;
* external collaborators (the Instagram downloader, the LLM, PIL image
  operations, the Chroma vector store and the langchain text splitter) are
  either parameters of the embedding or, where the specification fixes
  their contract, modelled from the spec (each such definition says so in
  its doc comment).
-/

/-- Document record: page content plus provenance metadata, as carried by
the langchain `Document` values the program manipulates. -/
structure Document where
  page_content : String
  source : String
  start_index : Option Nat := none
deriving DecidableEq, Repr

/-- Instagram post as consumed by `convert_instagram_post`: the program
reads `post.get('caption', '')` and `post.get('media_url')`. -/
structure InstaPost where
  caption : Option String
  media_url : Option String
deriving DecidableEq, Repr

/-- Tuple appended to `self.conversion_history`:
(input_post, source_platform, target_platform, converted_post, image_url). -/
abbrev ConversionRecord := String × String × String × String × Option String

/-- Embedding of `SocialMediaConverter.process_image` (source lines 206-214):
platform-keyed dispatch to the two `ImageProcessor` operations, which are
parameters here because they delegate to the external PIL library. -/
def process_image {Img : Type} (resize_image : Img → Nat × Nat → Img)
    (convert_to_format : Img → String → Img)
    (image : Img) (target_platform : String) : Img :=
  if target_platform = "Facebook" then
    convert_to_format (resize_image image (2048, 2048)) "PNG"
  else if target_platform = "LinkedIn" then
    convert_to_format (resize_image image (1200, 627)) "PNG"
  else
    image

/-- Embedding of `SocialMediaConverter.convert_instagram_post` (source lines
189-204).  `download_image` models `InstagramAPI.download_image`, which
catches every exception internally and returns `None` on failure, hence an
`Option` and never an error.  `rag_convert` models
`RAGChain.convert_post`, whose retrieval or generation may raise: `Except`.
The history is threaded explicitly; on an error the append on line 203 is
never executed, so the pre-call history is returned unchanged together with
the propagated error. -/
def convert_instagram_post {Img E : Type}
    (download_image : String → Option Img)
    (rag_convert : String → String → String → Bool → Except E String)
    (resize_image : Img → Nat × Nat → Img)
    (convert_to_format : Img → String → Img)
    (conversion_history : List ConversionRecord)
    (post : InstaPost) (target_platform : String) :
    List ConversionRecord × Except E (String × Option Img) :=
  let input_post := post.caption.getD ""
  let image_url := post.media_url
  let original_image : Option Img :=
    match image_url with
    | some url => download_image url
    | none => none
  match rag_convert input_post "Instagram" target_platform original_image.isSome with
  | .error e => (conversion_history, .error e)
  | .ok converted_post =>
    let processed_image : Option Img :=
      match original_image with
      | some img => some (process_image resize_image convert_to_format img target_platform)
      | none => none
    (conversion_history ++ [(input_post, "Instagram", target_platform, converted_post, image_url)],
     .ok (converted_post, processed_image))

/-- Embedding of `RAGChain._format_docs` (source line 97):
`"\n\n".join(doc.page_content for doc in docs)`. -/
def format_docs (docs : List Document) : String :=
  String.intercalate "\n\n" (docs.map (fun d => d.page_content))

/-- Retrieval depth fixed by `vectorstore.as_retriever(..., search_kwargs={"k": 5})`
on source line 90. -/
def retriever_k : Nat := 5

/-- Search mode fixed by `vectorstore.as_retriever(search_type="similarity", ...)`
on source line 90. -/
def retriever_search_type : String := "similarity"

/-- Modelled from the spec: the Embedding Index `query` contract (spec 4.3).
The Chroma vector store is an external library, so its similarity search is
modelled from the specification: return the `k` entries with highest
similarity score, ordered descending by score, ties broken by original
order (stable sort, which `List.mergeSort` provides). -/
def index_query {α : Type} (score : α → Int) (entries : List α) (k : Nat) : List α :=
  (entries.mergeSort (fun a b => decide (score b ≤ score a))).take k

/-- Embedding of the retriever built on source line 90: similarity search
with the fixed depth `retriever_k`.  `score` models embedding the query and
scoring an indexed chunk against it. -/
def retrieve {α : Type} (score : α → Int) (entries : List α) : List α :=
  index_query score entries retriever_k

/-- Embedding of the context stage of `RAGChain._create_rag_chain` (source
line 122): the retriever output is piped through `_format_docs` to become
the `context` value of the prompt. -/
def rag_context (score : String → Document → Int) (entries : List Document)
    (query : String) : String :=
  format_docs (retrieve (score query) entries)

/-- Prompt text of `RAGChain._create_prompt` (source lines 100-113) with the
five template variables substituted, in template order. -/
def prompt_of (context input_post source_platform target_platform image_included : String) :
    String :=
  "You are an expert in social media content creation and platform-specific formatting. Use the following context and given parameters to convert the input post to the target platform format.\n\nInput Post: "
    ++ input_post
    ++ "\nSource Platform: " ++ source_platform
    ++ "\nTarget Platform: " ++ target_platform
    ++ "\nImage Included: " ++ image_included
    ++ "\n\nContext (Style guides and platform-specific information):\n" ++ context
    ++ "\n\nConvert the input post to the target platform format, ensuring it adheres to the platform\x27s best practices and limitations. Maintain the core message and adapt any platform-specific features (e.g., hashtags, mentions, character limits). If an image is included, provide suggestions for image placement or formatting.\n\nConverted Post:\n"

/-- Rendering of the boolean on source line 133:
`"Yes" if image_included else "No"`. -/
def render_image_included (image_included : Bool) : String :=
  if image_included then "Yes" else "No"

/-- Prompt composed by `RAGChain.convert_post` for given chain inputs: the
boolean is rendered first (line 133), then substituted into the template. -/
def convert_post_prompt (context input_post source_platform target_platform : String)
    (image_included : Bool) : String :=
  prompt_of context input_post source_platform target_platform
    (render_image_included image_included)

/-- Embedding of the aggregation in `RAGChain.convert_post` (source line
129): `"".join(self.rag_chain.stream(...))`, joining the streamed fragments
in arrival order. -/
def convert_post_join (fragments : List String) : String :=
  String.join fragments

/-- Modelled from the spec: `Chroma.from_documents` (external library) builds
one index entry per chunk, pairing the chunk with its embedding vector
computed by the pluggable embedding function (spec 4.3). -/
def create_vectorstore (embedding : String → List Int) (documents : List Document) :
    List (Document × List Int) :=
  documents.map (fun d => (d, embedding d.page_content))

/-- Modelled from the spec: the Chunker algorithm of spec 4.2.  The text
splitter invoked by `SocialMediaConverter.split_documents` is the external
langchain library, so its contract is taken from the specification: scan the
content left to right; emit a chunk of length at most `chunk_size` starting
at the window start; advance the window start by `chunk_size - chunk_overlap`;
repeat until the remaining content is exhausted (a chunk reaching the end of
the content is the last one).  The configuration invariant
`chunk_overlap < chunk_size` (spec 4.2) is a parameter. -/
def chunk_content {α : Type} (chunk_size chunk_overlap : Nat)
    (hconf : chunk_overlap < chunk_size) (s : List α) : List (List α) :=
  if h : s.length ≤ chunk_size then [s]
  else
    s.take chunk_size ::
      chunk_content chunk_size chunk_overlap hconf (s.drop (chunk_size - chunk_overlap))
termination_by s.length
decreasing_by
  simp only [List.length_drop]
  omega

/-- Configuration invariant for the fixed configuration of
`SocialMediaConverter.split_documents` (source line 174):
`chunk_size=1000, chunk_overlap=50`. -/
theorem split_config_ok : (50 : Nat) < 1000 := by omega

/-- Embedding of `SocialMediaConverter.split_documents` (source lines
171-176): every document is chunked with chunk size 1000 and overlap 50, and
`add_start_index=True` records each chunk's start offset in its metadata.
With the spec's window advance of `1000 - 50 = 950`, the i-th chunk of a
document starts at offset `i * 950`. -/
def split_documents (documents : List Document) : List Document :=
  documents.flatMap (fun d =>
    (chunk_content 1000 50 split_config_ok d.page_content.toList).enum.map
      (fun p => { page_content := String.mk p.2, source := d.source,
                  start_index := some (p.1 * 950) }))

/-- Reconstruction operator used to state the chunking round-trip property:
keep the first chunk whole, and strip from every later chunk the
`chunk_overlap` characters it repeats from its predecessor, then
concatenate. -/
def rejoin {α : Type} (chunk_overlap : Nat) : List (List α) → List α
  | [] => []
  | c :: cs => c ++ (cs.map (fun x => x.drop chunk_overlap)).flatten

/-- Overlap relation between two consecutive chunks: the last
`chunk_overlap` elements of the first chunk are exactly the first
`chunk_overlap` elements of the second (both runs complete). -/
def overlaps_by {α : Type} (chunk_overlap : Nat) (a b : List α) : Prop :=
  chunk_overlap ≤ a.length ∧ chunk_overlap ≤ b.length ∧
    a.drop (a.length - chunk_overlap) = b.take chunk_overlap

/-- Embedding of `SocialMediaConverter.__init__` (source lines 137-153).
`load_result` models `load_documents`, an external directory loader that
either raises (inaccessible directory) or returns the loaded list; the
token models `os.getenv('INSTAGRAM_ACCESS_TOKEN')`.  The init sequence is
faithful to the source order: load, check for an empty corpus (raising
`ValueError(f"No documents found in {db_dir}")` before any split or index
construction), split, build the vector store, start with an empty history,
then check the token. -/
structure ConverterState where
  documents : List Document
  splits : List Document
  vectorstore : List (Document × List Int)
  conversion_history : List ConversionRecord
  access_token : String

def converter_init (load_result : Except String (List Document))
    (embedding : String → List Int) (db_dir : String)
    (instagram_access_token : Option String) : Except String ConverterState :=
  match load_result with
  | .error e => .error e
  | .ok documents =>
    if documents.isEmpty then
      .error ("No documents found in " ++ db_dir)
    else
      let splits := split_documents documents
      let vectorstore := create_vectorstore embedding splits
      match instagram_access_token with
      | none => .error "INSTAGRAM_ACCESS_TOKEN not found in .env file"
      | some tok =>
        .ok { documents := documents, splits := splits, vectorstore := vectorstore,
              conversion_history := [], access_token := tok }

/-! Helper lemmas about the chunker. -/

theorem chunk_content_length {α : Type} (C O : Nat) (h : O < C) (s : List α) :
    (chunk_content C O h s).length =
      if s.length ≤ C then 1 else (s.length - O + (C - O) - 1) / (C - O) := by
  induction s using chunk_content.induct C O h with
  | case1 s hle => rw [chunk_content]; simp [hle]
  | case2 s hgt ih =>
    rw [chunk_content]
    simp only [dif_neg hgt, List.length_cons, ih, List.length_drop]
    rw [if_neg hgt]
    by_cases h2 : s.length - (C - O) ≤ C
    · rw [if_pos h2]
      have hstep : 0 < C - O := by omega
      have hhi : s.length - O + (C - O) - 1 < 3 * (C - O) := by omega
      have hlo : 2 * (C - O) ≤ s.length - O + (C - O) - 1 := by omega
      rw [Nat.div_eq_of_lt_le hlo (by omega)]
    · rw [if_neg h2]
      have hstep : 0 < C - O := by omega
      have heq : s.length - O + (C - O) - 1
          = (s.length - (C - O) - O + (C - O) - 1) + (C - O) := by omega
      rw [heq, Nat.add_div_right _ hstep]

theorem chunk_content_drop_flatten {α : Type} (C O : Nat) (h : O < C) (s : List α) :
    ((chunk_content C O h s).map (fun c => c.drop O)).flatten = s.drop O := by
  induction s using chunk_content.induct C O h with
  | case1 s hle => rw [chunk_content]; simp [hle]
  | case2 s hgt ih =>
    rw [chunk_content]
    simp only [dif_neg hgt, List.map_cons, List.flatten_cons, ih]
    rw [List.drop_take, List.drop_drop]
    have h1 : C - O + O = C := by omega
    rw [h1]
    have h3 := List.drop_take_append_drop s O (C - O)
    rw [show O + (C - O) = C by omega] at h3
    exact h3

theorem rejoin_chunk_content {α : Type} (C O : Nat) (h : O < C) (s : List α) :
    rejoin O (chunk_content C O h s) = s := by
  rw [chunk_content]
  by_cases hle : s.length ≤ C
  · rw [dif_pos hle]; simp [rejoin]
  · rw [dif_neg hle]
    show List.take C s ++ _ = s
    rw [chunk_content_drop_flatten, List.drop_drop]
    rw [show C - O + O = C by omega]
    exact List.take_append_drop C s

theorem chunk_content_chain {α : Type} (C O : Nat) (h : O < C) (s : List α) :
    List.Chain' (overlaps_by O) (chunk_content C O h s) := by
  induction s using chunk_content.induct C O h with
  | case1 s hle => rw [chunk_content]; simp [hle]
  | case2 s hgt ih =>
    rw [chunk_content]
    rw [dif_neg hgt]
    rw [List.chain'_cons']
    refine ⟨?_, ih⟩
    intro b hb
    have htlen : O < (s.drop (C - O)).length := by
      simp only [List.length_drop]; omega
    have hslen : C ≤ s.length := by omega
    have htake_len : (s.take C).length = C := by
      simp only [List.length_take]; omega
    have hbval : b.take O = (s.drop (C - O)).take O ∧ O ≤ b.length := by
      rw [chunk_content] at hb
      by_cases h2 : (s.drop (C - O)).length ≤ C
      · rw [dif_pos h2] at hb
        simp only [List.head?_cons, Option.mem_def, Option.some.injEq] at hb
        subst hb
        exact ⟨rfl, by omega⟩
      · rw [dif_neg h2] at hb
        simp only [List.head?_cons, Option.mem_def, Option.some.injEq] at hb
        subst hb
        constructor
        · rw [List.take_take, Nat.min_def, if_pos (by omega : O ≤ C)]
        · simp only [List.length_take]; omega
    refine ⟨by omega, hbval.2, ?_⟩
    rw [htake_len, List.drop_take, hbval.1]
    rw [show C - (C - O) = O by omega]

theorem split_documents_single (d : Document) :
    (split_documents [d]).map Document.page_content
      = (chunk_content 1000 50 split_config_ok d.page_content.toList).map String.mk := by
  simp only [split_documents, List.flatMap_cons, List.flatMap_nil, List.append_nil,
    List.map_map]
  have : (Document.page_content ∘ fun p : Nat × List Char =>
      ({ page_content := String.mk p.2, source := d.source,
         start_index := some (p.1 * 950) } : Document)) = String.mk ∘ Prod.snd := rfl
  rw [this, ← List.map_map, List.enum_map_snd]

/-! Helper lemmas about the retrieval index. -/

theorem index_query_length {α : Type} (score : α → Int) (entries : List α) (k : Nat) :
    (index_query score entries k).length = min k entries.length := by
  simp [index_query]

theorem index_query_sorted_scores {α : Type} (score : α → Int) (entries : List α) (k : Nat) :
    ((index_query score entries k).map score).Pairwise (fun x y : Int => y ≤ x) := by
  have hs := @List.sorted_mergeSort α (fun a b : α => decide (score b ≤ score a))
      (fun a b c hab hbc => by
        simp only [decide_eq_true_eq] at *
        exact le_trans hbc hab)
      (fun a b => by
        simp only [Bool.or_eq_true, decide_eq_true_eq]
        exact le_total (score b) (score a))
      entries
  rw [List.pairwise_map]
  exact ((hs.sublist (List.take_sublist _ _)).imp (fun h => by simpa using h))

/-! Claim theorems. -/

/-- C2: for every document of content length L chunked with chunk size
C = 1000 and overlap O = 50, the number of chunks equals
ceil((L - O) / (C - O)) when L > C and equals 1 when L <= C, and
concatenating the chunks after removing each later chunk's 50-character
overlap with its predecessor reconstructs the document content exactly;
`split_documents` produces exactly these chunks for the document. -/
theorem split_chunk_count_and_reconstruction (d : Document) :
    (d.page_content.toList.length ≤ 1000 →
      (chunk_content 1000 50 split_config_ok d.page_content.toList).length = 1) ∧
    (1000 < d.page_content.toList.length →
      (chunk_content 1000 50 split_config_ok d.page_content.toList).length
        = (d.page_content.toList.length - 50 + 950 - 1) / 950) ∧
    rejoin 50 (chunk_content 1000 50 split_config_ok d.page_content.toList)
      = d.page_content.toList ∧
    (split_documents [d]).map Document.page_content
      = (chunk_content 1000 50 split_config_ok d.page_content.toList).map String.mk := by
  refine ⟨fun h => ?_, fun h => ?_, rejoin_chunk_content _ _ _ _, split_documents_single d⟩
  · rw [chunk_content_length, if_pos h]
  · rw [chunk_content_length, if_neg (by omega)]

/-- Witness for C2 at concrete inputs: a 1001-character document falls under
the ceiling formula (yielding 2 chunks), and a 2-character document yields
exactly one chunk. -/
theorem split_chunk_count_and_reconstruction_witness :
    (chunk_content 1000 50 split_config_ok
      (({ page_content := String.mk (List.replicate 1001 'a'), source := "g.pdf" } :
        Document).page_content.toList)).length
      = (({ page_content := String.mk (List.replicate 1001 'a'), source := "g.pdf" } :
        Document).page_content.toList.length - 50 + 950 - 1) / 950 ∧
    (chunk_content 1000 50 split_config_ok
      (({ page_content := "ab", source := "g.pdf" } : Document).page_content.toList)).length
      = 1 :=
  ⟨(split_chunk_count_and_reconstruction _).2.1
      (by show 1000 < (List.replicate 1001 'a').length; rw [List.length_replicate]; omega),
   (split_chunk_count_and_reconstruction _).1 (by decide)⟩

/-- C3: any two consecutive chunks produced from the same source document
overlap by exactly the configured 50 characters: the final 50 characters of
a chunk are exactly the first 50 characters of its successor. -/
theorem chunk_consecutive_overlap (d : Document) :
    List.Chain' (overlaps_by 50)
      (chunk_content 1000 50 split_config_ok d.page_content.toList) :=
  chunk_content_chain 1000 50 split_config_ok d.page_content.toList

/-- C4: the retriever is configured with plain similarity search and a fixed
k of 5, and the context string handed to the prompt is exactly the retrieved
chunks' contents concatenated in ranked (descending-similarity) order,
separated by a blank line, with no other text added or removed. -/
theorem rag_context_contract (score : String → Document → Int)
    (entries : List Document) (q : String) :
    rag_context score entries q
      = String.intercalate "\n\n"
          ((retrieve (score q) entries).map (fun d => d.page_content)) ∧
    retriever_k = 5 ∧
    retriever_search_type = "similarity" ∧
    retrieve (score q) entries = index_query (score q) entries 5 ∧
    ((retrieve (score q) entries).map (score q)).Pairwise (fun x y : Int => y ≤ x) :=
  ⟨rfl, rfl, rfl, rfl, index_query_sorted_scores _ _ _⟩

/-- C5: retrieval against a built index returns exactly min(k, index size)
chunks, with similarity scores non-increasing across the returned sequence;
in particular k = 5 against an index of two chunks returns exactly two
chunks. -/
theorem index_query_topk {α : Type} (score : α → Int) (entries : List α) (k : Nat) :
    (index_query score entries k).length = min k entries.length ∧
    ((index_query score entries k).map score).Pairwise (fun x y : Int => y ≤ x) ∧
    ∀ (a b : α), (index_query score [a, b] 5).length = 2 :=
  ⟨index_query_length _ _ _, index_query_sorted_scores _ _ _,
   fun a b => by rw [index_query_length]; rfl⟩

/-- C6: prompt composition is a pure function of exactly the five inputs
(identical inputs yield the identical prompt string), and the boolean
image_included is rendered in the prompt as the token "Yes" when true and
"No" when false, never as a raw boolean. -/
theorem convert_post_prompt_pure (c i s t c2 i2 s2 t2 : String) (b b2 : Bool) :
    (c = c2 → i = i2 → s = s2 → t = t2 → b = b2 →
      convert_post_prompt c i s t b = convert_post_prompt c2 i2 s2 t2 b2) ∧
    convert_post_prompt c i s t b = prompt_of c i s t (if b then "Yes" else "No") ∧
    (render_image_included b = "Yes" ↔ b = true) ∧
    (render_image_included b = "No" ↔ b = false) ∧
    render_image_included b ≠ "True" ∧
    render_image_included b ≠ "False" := by
  refine ⟨?_, rfl, ?_, ?_, ?_, ?_⟩
  · intro h1 h2 h3 h4 h5
    subst h1; subst h2; subst h3; subst h4; subst h5
    rfl
  all_goals cases b <;> simp [render_image_included]

/-- Witness for C6 at concrete inputs, discharging the input-equality
hypotheses of the purity conjunct. -/
theorem convert_post_prompt_pure_witness :
    convert_post_prompt "ctx" "post" "Instagram" "Facebook" true
      = convert_post_prompt "ctx" "post" "Instagram" "Facebook" true :=
  (convert_post_prompt_pure "ctx" "post" "Instagram" "Facebook"
    "ctx" "post" "Instagram" "Facebook" true true).1 rfl rfl rfl rfl rfl

/-- C7: the streamed generation result returned by `convert_post` is the
concatenation of the received fragments in exactly their arrival order
(character-for-character, so nothing is dropped, reordered or duplicated),
and it equals the result of a non-streaming generate call producing the
same fragment sequence. -/
theorem convert_post_stream_reconstruction
    (generate : String → String) (stream : String → List String)
    (hgen : ∀ p, generate p = String.join (stream p)) (p : String) :
    convert_post_join (stream p) = generate p ∧
    (convert_post_join (stream p)).data = ((stream p).map String.data).flatten ∧
    (convert_post_join (stream p)).length = ((stream p).map String.length).sum := by
  refine ⟨(hgen p).symm, ?_, ?_⟩
  · rw [convert_post_join, String.join_eq]
  · rw [convert_post_join, String.join_eq]
    show ((stream p).map String.data).flatten.length = _
    rw [List.length_flatten, List.map_map]
    rfl

/-- Witness for C7 with a concrete fragment sequence and the generate
function that returns its concatenation. -/
theorem convert_post_stream_reconstruction_witness :
    convert_post_join ["Conv", "erted"] = String.join ["Conv", "erted"] ∧
    (convert_post_join ["Conv", "erted"]).data
      = (["Conv", "erted"].map String.data).flatten ∧
    (convert_post_join ["Conv", "erted"]).length
      = (["Conv", "erted"].map String.length).sum :=
  convert_post_stream_reconstruction
    (fun q => String.join ((fun _ => ["Conv", "erted"]) q))
    (fun _ => ["Conv", "erted"]) (fun _ => rfl) "p"

/-- C8: constructing the converter over a corpus that yields zero eligible
documents fails with the load error (`ValueError("No documents found in
...")`) during construction, so no converter state (and in particular no
vector store) is ever produced. -/
theorem converter_init_empty_corpus (embedding : String → List Int) (db_dir : String)
    (token : Option String) :
    converter_init (.ok []) embedding db_dir token
      = .error ("No documents found in " ++ db_dir) ∧
    ∀ st : ConverterState, converter_init (.ok []) embedding db_dir token ≠ .ok st :=
  ⟨rfl, fun st h => by simp [converter_init] at h⟩

/-- C9: image post-processing is a lookup keyed by target-platform name:
Facebook resizes to fit within (2048, 2048) and converts to PNG, LinkedIn
resizes to fit within (1200, 627) and converts to PNG, and every other
target platform returns the image unchanged. -/
theorem process_image_platform_rules {Img : Type}
    (resize_image : Img → Nat × Nat → Img) (convert_to_format : Img → String → Img)
    (image : Img) (target_platform : String) :
    process_image resize_image convert_to_format image "Facebook"
      = convert_to_format (resize_image image (2048, 2048)) "PNG" ∧
    process_image resize_image convert_to_format image "LinkedIn"
      = convert_to_format (resize_image image (1200, 627)) "PNG" ∧
    (target_platform ≠ "Facebook" → target_platform ≠ "LinkedIn" →
      process_image resize_image convert_to_format image target_platform = image) := by
  refine ⟨rfl, ?_, ?_⟩
  · rw [process_image, if_neg (by decide), if_pos rfl]
  · intro h1 h2
    rw [process_image, if_neg h1, if_neg h2]

/-- Witness for C9: a platform other than Facebook and LinkedIn leaves the
image unchanged. -/
theorem process_image_platform_rules_witness :
    process_image (fun n _ => (n : Nat)) (fun n _ => n) 7 "Thread" = 7 :=
  (process_image_platform_rules (fun n _ => n) (fun n _ => n) 7 "Thread").2.2
    (by decide) (by decide)

/-- C1: if the RAG conversion succeeds, exactly one record
(input_post, source_platform, target_platform, converted_post, image_url)
is appended to the conversion history and the converted text is returned;
if retrieval or generation raises, the history is left exactly as it was
(no partial record) and the triggering error propagates unchanged. -/
theorem convert_instagram_post_history_isolation {Img E : Type}
    (download_image : String → Option Img)
    (rag_convert : String → String → String → Bool → Except E String)
    (resize_image : Img → Nat × Nat → Img)
    (convert_to_format : Img → String → Img)
    (conversion_history : List ConversionRecord)
    (post : InstaPost) (target_platform : String) :
    (∀ e : E,
      rag_convert (post.caption.getD "") "Instagram" target_platform
          (post.media_url.bind download_image).isSome = .error e →
      convert_instagram_post download_image rag_convert resize_image convert_to_format
          conversion_history post target_platform
        = (conversion_history, .error e)) ∧
    (∀ out : String,
      rag_convert (post.caption.getD "") "Instagram" target_platform
          (post.media_url.bind download_image).isSome = .ok out →
      ∃ img : Option Img,
        convert_instagram_post download_image rag_convert resize_image convert_to_format
            conversion_history post target_platform
          = (conversion_history
              ++ [(post.caption.getD "", "Instagram", target_platform, out, post.media_url)],
             .ok (out, img))) := by
  have hb : (match post.media_url with
      | some url => download_image url
      | none => (none : Option Img)) = post.media_url.bind download_image := by
    cases post.media_url <;> rfl
  constructor
  · intro e he
    rw [convert_instagram_post]
    simp only [hb, he]
  · intro out hout
    refine ⟨(post.media_url.bind download_image).map
      (fun i => process_image resize_image convert_to_format i target_platform), ?_⟩
    rw [convert_instagram_post]
    simp only [hb, hout]
    cases hb2 : post.media_url.bind download_image <;> simp [hb2]

/-- Witness for C1: with no image URL, a failing RAG conversion leaves the
empty history empty and propagates the error, while a succeeding one appends
exactly the one expected record. -/
theorem convert_instagram_post_history_isolation_witness :
    convert_instagram_post (fun _ => (none : Option Nat))
        (fun _ _ _ _ => (.error "ERR" : Except String String))
        (fun n _ => n) (fun n _ => n) [] ⟨some "hello", none⟩ "Facebook"
      = ([], .error "ERR") ∧
    ∃ img : Option Nat,
      convert_instagram_post (fun _ => (none : Option Nat))
          (fun _ _ _ _ => (.ok "OUT" : Except String String))
          (fun n _ => n) (fun n _ => n) [] ⟨some "hello", none⟩ "Facebook"
        = ([("hello", "Instagram", "Facebook", "OUT", none)], .ok ("OUT", img)) :=
  ⟨(convert_instagram_post_history_isolation _ _ _ _ _ _ _).1 "ERR" rfl,
   (convert_instagram_post_history_isolation _ _ _ _ _ _ _).2 "OUT" rfl⟩

/-- C10: the image_included flag given to the RAG conversion is true exactly
when the image download returned an image: a post whose image URL fails to
download is silently converted with the flag false (no error raised), while
the appended record still stores the original image URL; a successful
download sets the flag true and post-processes the downloaded image. -/
theorem convert_instagram_post_image_flag {Img E : Type}
    (download_image : String → Option Img)
    (rag_convert : String → String → String → Bool → Except E String)
    (resize_image : Img → Nat × Nat → Img)
    (convert_to_format : Img → String → Img)
    (conversion_history : List ConversionRecord)
    (post : InstaPost) (target_platform : String) (u : String) :
    post.media_url = some u →
    ((download_image u = none →
      ∀ out : String,
        rag_convert (post.caption.getD "") "Instagram" target_platform false = .ok out →
        convert_instagram_post download_image rag_convert resize_image convert_to_format
            conversion_history post target_platform
          = (conversion_history
              ++ [(post.caption.getD "", "Instagram", target_platform, out, some u)],
             .ok (out, none))) ∧
     (∀ img : Img, download_image u = some img →
      ∀ out : String,
        rag_convert (post.caption.getD "") "Instagram" target_platform true = .ok out →
        convert_instagram_post download_image rag_convert resize_image convert_to_format
            conversion_history post target_platform
          = (conversion_history
              ++ [(post.caption.getD "", "Instagram", target_platform, out, some u)],
             .ok (out, some (process_image resize_image convert_to_format img
                    target_platform))))) := by
  intro hu
  constructor
  · intro hdl out hout
    rw [convert_instagram_post]
    simp only [hu, hdl, Option.isSome_none, hout]
  · intro img hdl out hout
    rw [convert_instagram_post]
    simp only [hu, hdl, Option.isSome_some, hout]

/-- Witness for C10: a failing download converts with flag false and records
the original URL; a successful download post-processes the image. -/
theorem convert_instagram_post_image_flag_witness :
    (convert_instagram_post (fun _ => (none : Option Nat))
        (fun _ _ _ _ => (.ok "OUT" : Except String String))
        (fun n _ => n * 2) (fun n _ => n + 1) [] ⟨some "cap", some "u1"⟩ "LinkedIn"
      = ([("cap", "Instagram", "LinkedIn", "OUT", some "u1")], .ok ("OUT", none))) ∧
    (convert_instagram_post (fun _ => (some 3 : Option Nat))
        (fun _ _ _ _ => (.ok "OUT" : Except String String))
        (fun n _ => n * 2) (fun n _ => n + 1) [] ⟨some "cap", some "u1"⟩ "LinkedIn"
      = ([("cap", "Instagram", "LinkedIn", "OUT", some "u1")],
         .ok ("OUT", some (process_image (fun n _ => n * 2) (fun n _ => n + 1)
                3 "LinkedIn")))) :=
  ⟨((convert_instagram_post_image_flag _ _ _ _ _ _ _ "u1") rfl).1 rfl "OUT" rfl,
   ((convert_instagram_post_image_flag _ _ _ _ _ _ _ "u1") rfl).2 3 rfl "OUT" rfl⟩
